import Mathlib

/-!
Verification of the per-frame vertex simulation and pointer/automation
blending engine of the type-collapse repository.

The embedding below follows the automation-capable `ElasticText` component
(the variant actually mounted by `TextDestructionExperience`) and the
sequence-export hook (`useScreenshotExport`).  All arithmetic is carried out
over exact rationals.  Host-library primitives that are external to the
repository (the `Math.sin` / `Math.cos` / `Math.sqrt` / `Math.exp` /
`Math.pow` functions, the constant `Math.PI`, and the `simplex-noise` field
returned by `createNoise3D`) are passed in explicitly: the `MathPrims`
record carries the `Math` primitives, and the noise field is a function
parameter `noise3 : ℚ → ℚ → ℚ → ℚ`.  This mirrors the fact that the
component itself treats them as opaque callables.
-/

namespace TypeCollapse

/-- A 3D vector with rational components, mirroring `THREE.Vector3` as the
component uses it. -/
structure Vec3 where
  x : ℚ
  y : ℚ
  z : ℚ
  deriving DecidableEq, Repr

/-- A quaternion with rational components, mirroring `THREE.Quaternion`. -/
structure Quat where
  x : ℚ
  y : ℚ
  z : ℚ
  w : ℚ
  deriving DecidableEq, Repr

/-- The external `Math` primitives the component calls.  They are opaque
collaborators of the core; theorems state the exact properties of the real
functions they rely on as hypotheses. -/
structure MathPrims where
  sin : ℚ → ℚ
  cos : ℚ → ℚ
  sqrt : ℚ → ℚ
  exp : ℚ → ℚ
  pow : ℚ → ℚ → ℚ
  pi : ℚ

/-- `Math.max` on two values, as JavaScript computes it (the larger
argument).  Written as an explicit conditional so that it reduces in the
kernel; it is proved equal to `max` below. -/
def mathMax (a b : ℚ) : ℚ :=
  if a ≤ b then b else a

/-- `Math.min` on two values (the smaller argument). -/
def mathMin (a b : ℚ) : ℚ :=
  if a ≤ b then a else b

/-- Source `clamp(value, min, max) = Math.min(max, Math.max(min, value))`. -/
def clamp (value minValue maxValue : ℚ) : ℚ :=
  mathMin maxValue (mathMax minValue value)

/-- `Math.sign`. -/
def mathSign (x : ℚ) : ℚ :=
  if 0 < x then 1 else if x < 0 then -1 else 0

/-- Source `easeInOutSine(value) = -(Math.cos(Math.PI * value) - 1) * 0.5`. -/
def easeInOutSine (M : MathPrims) (value : ℚ) : ℚ :=
  -(M.cos (M.pi * value) - 1) * 0.5

/-- Source `hashToUnit`: `sin(v * 12.9898 + 78.233) * 43758.5453123`
with its floor subtracted. -/
def hashToUnit (M : MathPrims) (value : ℚ) : ℚ :=
  let hashed := M.sin (value * 12.9898 + 78.233) * 43758.5453123
  hashed - ⌊hashed⌋

/-- Source `randomSignedWithBiasFromUnit`. -/
def randomSignedWithBiasFromUnit (M : MathPrims) (unit centerBias : ℚ) : ℚ :=
  let random := unit * 2 - 1
  let exponent := 1 + clamp centerBias 0 1 * 2.5
  mathSign random * M.pow |random| exponent

/-- `THREE.Vector3.lerp`: `this += (v - this) * alpha`, componentwise. -/
def Vec3.lerp (a b : Vec3) (alpha : ℚ) : Vec3 :=
  ⟨a.x + (b.x - a.x) * alpha, a.y + (b.y - a.y) * alpha, a.z + (b.z - a.z) * alpha⟩

/-- `THREE.Vector3.lerpVectors(v1, v2, alpha) = v1 + (v2 - v1) * alpha`. -/
def Vec3.lerpVectors (v1 v2 : Vec3) (alpha : ℚ) : Vec3 :=
  ⟨v1.x + (v2.x - v1.x) * alpha, v1.y + (v2.y - v1.y) * alpha,
   v1.z + (v2.z - v1.z) * alpha⟩

/-- `THREE.Vector3.addScaledVector(v, s)`: `this + v * s`. -/
def Vec3.addScaledVector (a v : Vec3) (s : ℚ) : Vec3 :=
  ⟨a.x + v.x * s, a.y + v.y * s, a.z + v.z * s⟩

/-- `THREE.Vector3.multiplyScalar(s)`. -/
def Vec3.multiplyScalar (v : Vec3) (s : ℚ) : Vec3 :=
  ⟨v.x * s, v.y * s, v.z * s⟩

/-- `THREE.Quaternion.setFromEuler` for the default `XYZ` Euler order. -/
def quatFromEulerXYZ (M : MathPrims) (ex ey ez : ℚ) : Quat :=
  let c1 := M.cos (ex / 2)
  let c2 := M.cos (ey / 2)
  let c3 := M.cos (ez / 2)
  let s1 := M.sin (ex / 2)
  let s2 := M.sin (ey / 2)
  let s3 := M.sin (ez / 2)
  ⟨s1 * c2 * c3 + c1 * s2 * s3,
   c1 * s2 * c3 - s1 * c2 * s3,
   c1 * c2 * s3 + s1 * s2 * c3,
   c1 * c2 * c3 - s1 * s2 * s3⟩

/-- `THREE.Vector3.applyQuaternion`. -/
def applyQuaternion (q : Quat) (v : Vec3) : Vec3 :=
  let tx := 2 * (q.y * v.z - q.z * v.y)
  let ty := 2 * (q.z * v.x - q.x * v.z)
  let tz := 2 * (q.x * v.y - q.y * v.x)
  ⟨v.x + q.w * tx + q.y * tz - q.z * ty,
   v.y + q.w * ty + q.z * tx - q.x * tz,
   v.z + q.w * tz + q.x * ty - q.y * tx⟩

/-- `THREE.Vector3.applyEuler` (convert the Euler angles to a quaternion,
then apply it). -/
def applyEuler (M : MathPrims) (e v : Vec3) : Vec3 :=
  applyQuaternion (quatFromEulerXYZ M e.x e.y e.z) v

/-- The numeric simulation fields of `DistortionSettings`; the purely
visual fields (colors, roughness, wireframe, emissive boost) are consumed
by the rendering layer and play no part in the simulation. -/
structure DistortionSettings where
  noiseAmplitude : ℚ
  noiseFrequency : ℚ
  noiseSpeed : ℚ
  followRate : ℚ
  radius : ℚ
  explodeAmplitude : ℚ
  rotationAmplitude : ℚ
  spring : ℚ
  friction : ℚ
  idleMix : ℚ
  deriving DecidableEq, Repr

/-- `DistortionAutomationMode`: `'Off' | 'Sweep' | 'BPM Buzz'`. -/
inductive DistortionAutomationMode where
  | Off
  | Sweep
  | BpmBuzz
  deriving DecidableEq, Repr

/-- `DistortionAutomationSettings`. -/
structure DistortionAutomationSettings where
  enabled : Bool
  mode : DistortionAutomationMode
  intensity : ℚ
  pointerZOffset : ℚ
  sweepCycleSeconds : ℚ
  sweepWidth : ℚ
  sweepCurve : ℚ
  sweepBob : ℚ
  sweepBobFrequency : ℚ
  sweepDepth : ℚ
  bpm : ℚ
  stepsPerBeat : ℚ
  buzzFraction : ℚ
  buzzAttack : ℚ
  buzzRelease : ℚ
  spreadX : ℚ
  spreadY : ℚ
  centerBias : ℚ
  travelPortion : ℚ
  deriving DecidableEq, Repr

/-- `TextBounds` (the bounding box captured at mesh initialization). -/
structure TextBounds where
  minX : ℚ
  maxX : ℚ
  minY : ℚ
  maxY : ℚ
  minZ : ℚ
  maxZ : ℚ
  deriving DecidableEq, Repr

/-- `BpmAutomationState`: current step index plus the interpolation
endpoints of the current rhythmic step (`from` and `to` are named `fromV` and `toV`
because both words are reserved in Lean). -/
structure BpmAutomationState where
  stepIndex : ℤ
  fromV : Vec3
  toV : Vec3
  deriving DecidableEq, Repr

/-- One vertex of the simulation: current position and velocity.  The base
position and normal live in the immutable mesh and are passed separately. -/
structure VertexState where
  pos : Vec3
  vel : Vec3
  deriving DecidableEq, Repr

/-- The mutable per-frame state of the component: elapsed simulation time,
the smoothed and instantaneous attention points, manual pointer state (the
raw target and the gsap-driven engagement weight, written by the pointer
callbacks between frames), the automation target, the rhythmic-step state,
and the per-vertex arrays. -/
structure FrameState where
  time : ℚ
  pointerCurrent : Vec3
  pointerTarget : Vec3
  manualPointerTarget : Vec3
  manualPress : ℚ
  automationTarget : Vec3
  bpm : BpmAutomationState
  verts : List VertexState
  deriving DecidableEq, Repr

/-- Source line `const radius = Math.max(activeDistortion.radius, 0.0001)`. -/
def radiusClamped (radius : ℚ) : ℚ :=
  mathMax radius 0.0001

/-- Squared Euclidean distance from a vertex base position to the attention
point: `dx*dx + dy*dy + dz*dz` with `d? = base? - pointer?`. -/
def vdistSq (base pointer : Vec3) : ℚ :=
  (base.x - pointer.x) * (base.x - pointer.x) +
    (base.y - pointer.y) * (base.y - pointer.y) +
    (base.z - pointer.z) * (base.z - pointer.z)

/-- Source `const distance = Math.sqrt(dx*dx + dy*dy + dz*dz)`. -/
def vertexDistance (M : MathPrims) (base pointer : Vec3) : ℚ :=
  M.sqrt (vdistSq base pointer)

/-- Source `const pointerInfluence = distance <= radius ?
activeDistortion.explodeAmplitude : 0` — the hard proximity gate. -/
def pointerInfluenceCalc (M : MathPrims) (base pointer : Vec3)
    (radius explode : ℚ) : ℚ :=
  if vertexDistance M base pointer ≤ radius then explode else 0

/-- The per-vertex body of the `useFrame` loop: proximity gate, three noise
samples at the current position, displacement along the base normal, the
optional rotation around the normal, the mix toward the base, and the
spring/friction integration. -/
def vertexStep (M : MathPrims) (noise3 : ℚ → ℚ → ℚ → ℚ)
    (cfg : DistortionSettings) (pointer : Vec3) (mixFactor t seed radius : ℚ)
    (base normal : Vec3) (v : VertexState) : VertexState :=
  let current := v.pos
  let distance := vertexDistance M base pointer
  let pointerInfluence := pointerInfluenceCalc M base pointer radius cfg.explodeAmplitude
  let frequency := cfg.noiseFrequency
  let noiseX := noise3 (current.x * frequency + seed * 0.17)
    (current.y * frequency + t) (current.z * frequency)
  let noiseY := noise3 (current.x * frequency)
    (current.y * frequency + 23.713 + t) (current.z * frequency + seed * 0.31)
  let noiseZ := noise3 (current.x * frequency + seed * 0.59)
    (current.y * frequency + t) (current.z * frequency + 51.219)
  let distorted0 : Vec3 :=
    ⟨base.x + noiseX * normal.x * pointerInfluence * cfg.noiseAmplitude,
     base.y + noiseY * normal.y * pointerInfluence * cfg.noiseAmplitude,
     base.z + noiseZ * normal.z * pointerInfluence * cfg.noiseAmplitude⟩
  let distorted :=
    if 0 < pointerInfluence then
      let rotationFactor := distance * pointerInfluence * cfg.rotationAmplitude
      applyEuler M
        ⟨normal.x * rotationFactor, normal.y * rotationFactor,
         normal.z * rotationFactor⟩
        distorted0
    else distorted0
  let target : Vec3 :=
    ⟨base.x + (distorted.x - base.x) * mixFactor,
     base.y + (distorted.y - base.y) * mixFactor,
     base.z + (distorted.z - base.z) * mixFactor⟩
  let vel1 : Vec3 :=
    ⟨v.vel.x + (target.x - current.x) * cfg.spring,
     v.vel.y + (target.y - current.y) * cfg.spring,
     v.vel.z + (target.z - current.z) * cfg.spring⟩
  let next : Vec3 := ⟨current.x + vel1.x, current.y + vel1.y, current.z + vel1.z⟩
  let vel2 : Vec3 := ⟨vel1.x * cfg.friction, vel1.y * cfg.friction, vel1.z * cfg.friction⟩
  ⟨next, vel2⟩

/-- The whole-mesh vertex loop: apply `vertexStep` to every aligned
(base, normal, state) triple. -/
def updateVerts (M : MathPrims) (noise3 : ℚ → ℚ → ℚ → ℚ)
    (cfg : DistortionSettings) (pointer : Vec3) (mixFactor t seed radius : ℚ)
    (mesh : List (Vec3 × Vec3)) (verts : List VertexState) : List VertexState :=
  List.zipWith
    (fun bn v => vertexStep M noise3 cfg pointer mixFactor t seed radius bn.1 bn.2 v)
    mesh verts

/-- The pointer-target blend (source lines around `pointerBlendRef`):
when the total weight exceeds the `0.0001` threshold the instantaneous
target becomes the normalized weighted average of the manual and automation
targets; otherwise the previous instantaneous target is kept. -/
def blendTarget (manualTarget automationTarget prevTarget : Vec3)
    (manualPress automationPress : ℚ) : Vec3 :=
  let totalPress := manualPress + automationPress
  if 0.0001 < totalPress then
    (((⟨0, 0, 0⟩ : Vec3).addScaledVector manualTarget manualPress).addScaledVector
        automationTarget automationPress).multiplyScalar (1 / totalPress)
  else prevTarget

/-- Source `const followAlpha = 1 - Math.exp(-delta *
activeDistortion.followRate)`.  Note the configured follow rate enters
unclamped. -/
def followAlphaOf (M : MathPrims) (delta followRate : ℚ) : ℚ :=
  1 - M.exp (-(delta * followRate))

/-- The same expression over the reals with the genuine exponential, used to
reason exactly about the zero-follow-rate case. -/
noncomputable def followAlphaReal (delta followRate : ℝ) : ℝ :=
  1 - Real.exp (-(delta * followRate))

/-- Source `const press = Math.max(manualPress, automationPress)` — the
engagement factor is the maximum of the two weights, not their sum. -/
def framePress (manualPress automationPress : ℚ) : ℚ :=
  mathMax manualPress automationPress

/-- Source `const mixFactor = Math.max(press, idleMix)`. -/
def frameMixFactor (manualPress automationPress idleMix : ℚ) : ℚ :=
  mathMax (framePress manualPress automationPress) idleMix

/-- Source `const stepDuration = 60 / (bpm * stepsPerBeat)` after the
clamps `bpm = Math.max(bpm, 1)` and `stepsPerBeat = Math.max(1,
stepsPerBeat)`. -/
def bpmStepDuration (bpm stepsPerBeat : ℚ) : ℚ :=
  60 / (mathMax bpm 1 * mathMax 1 stepsPerBeat)

/-- Source `const stepIndex = Math.floor(timeRef.current / stepDuration)`. -/
def bpmStepIndexAt (time stepDuration : ℚ) : ℤ :=
  ⌊time / stepDuration⌋

/-- Source `const randomSeedBase = seed * 0.173 + stepIndex * 1.4142`. -/
def bpmRandomSeedBase (seed : ℚ) (stepIndex : ℤ) : ℚ :=
  seed * 0.173 + (stepIndex : ℚ) * 1.4142

/-- The random target drawn on entering a new rhythmic step: a pure
function of the seed, the step index, the automation configuration and the
mesh-bounds-derived ranges (it reads no other frame state). -/
def bpmDrawTarget (M : MathPrims) (auto : DistortionAutomationSettings)
    (halfWidth halfHeight halfDepth centerX centerY centerZ seed : ℚ)
    (stepIndex : ℤ) : Vec3 :=
  let spreadX := clamp auto.spreadX 0.05 1.3
  let spreadY := clamp auto.spreadY 0.05 1.3
  let randomSeedBase := bpmRandomSeedBase seed stepIndex
  let xNorm := randomSignedWithBiasFromUnit M (hashToUnit M (randomSeedBase + 13.11))
    auto.centerBias
  let yNorm := randomSignedWithBiasFromUnit M (hashToUnit M (randomSeedBase + 31.77))
    auto.centerBias
  let zNorm := randomSignedWithBiasFromUnit M (hashToUnit M (randomSeedBase + 57.43))
    (mathMin 1 (auto.centerBias + 0.25))
  let xRange := halfWidth * spreadX
  let yRange := halfHeight * spreadY
  let zRange := halfDepth * 0.35 + 0.12
  ⟨centerX + xNorm * xRange,
   centerY + yNorm * yRange,
   centerZ + zNorm * zRange + auto.pointerZOffset⟩

/-- The `BPM Buzz` branch of the frame: step bookkeeping, the eased
interpolation between the step endpoints, and the percussive engagement
envelope.  Returns the automation target, the automation press and the new
rhythmic state. -/
def bpmBranch (M : MathPrims) (auto : DistortionAutomationSettings)
    (halfWidth halfHeight halfDepth centerX centerY centerZ seed time : ℚ)
    (prevTarget : Vec3) (st : BpmAutomationState) :
    Vec3 × ℚ × BpmAutomationState :=
  let stepDuration := bpmStepDuration auto.bpm auto.stepsPerBeat
  let stepPosition := time / stepDuration
  let stepIndex : ℤ := ⌊stepPosition⌋
  let stepProgress := stepPosition - (stepIndex : ℚ)
  let st1 : BpmAutomationState :=
    if stepIndex ≠ st.stepIndex then
      { stepIndex := stepIndex
        fromV := prevTarget
        toV := bpmDrawTarget M auto halfWidth halfHeight halfDepth centerX centerY
          centerZ seed stepIndex }
    else st
  let travelPortion := clamp auto.travelPortion 0.01 1
  let moveAlpha := clamp (stepProgress / travelPortion) 0 1
  let automationTarget := Vec3.lerpVectors st1.fromV st1.toV (easeInOutSine M moveAlpha)
  let buzzFraction := clamp auto.buzzFraction 0.02 1
  let press :=
    if stepProgress ≤ buzzFraction then
      let buzzProgress := stepProgress / buzzFraction
      let attack := clamp auto.buzzAttack 0.01 0.49
      let rel := clamp auto.buzzRelease 0.01 0.49
      let envelope :=
        if buzzProgress < attack then buzzProgress / attack
        else if 1 - rel < buzzProgress then (1 - buzzProgress) / rel
        else 1
      clamp (envelope * auto.intensity) 0 1
    else 0
  (automationTarget, press, st1)

/-- The automation section of the frame.  `automationPressState.value` is
reset to `0` before the branch runs; whenever automation is disabled or the
mode is `Off`, the press stays `0` and the target is untouched. -/
def automationBranch (M : MathPrims) (auto : DistortionAutomationSettings)
    (bounds : TextBounds) (seed time : ℚ) (prevTarget : Vec3)
    (st : BpmAutomationState) : Vec3 × ℚ × BpmAutomationState :=
  let width := mathMax (bounds.maxX - bounds.minX) 0.001
  let height := mathMax (bounds.maxY - bounds.minY) 0.001
  let depthSpan := mathMax (bounds.maxZ - bounds.minZ) 0.001
  let halfWidth := width * 0.5
  let halfHeight := height * 0.5
  let halfDepth := depthSpan * 0.5
  let centerX := (bounds.maxX + bounds.minX) * 0.5
  let centerY := (bounds.maxY + bounds.minY) * 0.5
  let centerZ := (bounds.maxZ + bounds.minZ) * 0.5
  if auto.enabled = true ∧ auto.mode ≠ DistortionAutomationMode.Off then
    match auto.mode with
    | DistortionAutomationMode.Sweep =>
        let cycleSeconds := mathMax auto.sweepCycleSeconds 0.1
        let phase := time / cycleSeconds * M.pi * 2
        let xNorm := M.sin phase
        let xTravel := halfWidth * clamp auto.sweepWidth 0.05 1.3
        let curveLift := (1 - xNorm * xNorm) * auto.sweepCurve * halfHeight
        let bob := M.sin (phase * mathMax auto.sweepBobFrequency 0.01) * auto.sweepBob * halfHeight
        let zOscillation := M.cos (phase * 1.65) * auto.sweepDepth * (halfDepth + 0.25)
        let targetX := centerX + xNorm * xTravel
        let targetY := centerY + curveLift + bob
        let targetZ := centerZ + zOscillation + auto.pointerZOffset
        let yLimit := halfHeight * 1.35
        (⟨clamp targetX (centerX - xTravel) (centerX + xTravel),
          clamp targetY (centerY - yLimit) (centerY + yLimit),
          targetZ⟩,
         clamp auto.intensity 0 1, st)
    | DistortionAutomationMode.BpmBuzz =>
        bpmBranch M auto halfWidth halfHeight halfDepth centerX centerY centerZ
          seed time prevTarget st
    | DistortionAutomationMode.Off => (prevTarget, 0, st)
  else (prevTarget, 0, st)

/-- One invocation of the `useFrame` callback of the automation-capable
component.  When `paused` is set the callback returns before touching any
simulation state (only shader uniforms, which are not simulation state, are
refreshed), so the state is returned unchanged. -/
def frame (M : MathPrims) (noise3 : ℚ → ℚ → ℚ → ℚ)
    (cfg : DistortionSettings) (auto : DistortionAutomationSettings)
    (bounds : TextBounds) (seed : ℚ) (paused : Bool)
    (mesh : List (Vec3 × Vec3)) (delta : ℚ) (s : FrameState) : FrameState :=
  if paused then s
  else
    let time := s.time + delta
    let abr := automationBranch M auto bounds seed time s.automationTarget s.bpm
    let automationTarget := abr.1
    let automationPress := abr.2.1
    let bpmState := abr.2.2
    let manualPress := s.manualPress
    let pointerTarget := blendTarget s.manualPointerTarget automationTarget
      s.pointerTarget manualPress automationPress
    let followAlpha := followAlphaOf M delta cfg.followRate
    let pointerCurrent := Vec3.lerp s.pointerCurrent pointerTarget followAlpha
    let mixFactor := frameMixFactor manualPress automationPress cfg.idleMix
    let t := time * cfg.noiseSpeed + seed * 0.001
    let radius := radiusClamped cfg.radius
    let verts := updateVerts M noise3 cfg pointerCurrent mixFactor t seed radius
      mesh s.verts
    { time := time
      pointerCurrent := pointerCurrent
      pointerTarget := pointerTarget
      manualPointerTarget := s.manualPointerTarget
      manualPress := s.manualPress
      automationTarget := automationTarget
      bpm := bpmState
      verts := verts }

/-- A whole run: fold `frame` over a sequence of time deltas. -/
def simulate (M : MathPrims) (noise3 : ℚ → ℚ → ℚ → ℚ)
    (cfg : DistortionSettings) (auto : DistortionAutomationSettings)
    (bounds : TextBounds) (seed : ℚ) (paused : Bool)
    (mesh : List (Vec3 × Vec3)) (deltas : List ℚ) (s : FrameState) : FrameState :=
  deltas.foldl (fun st d => frame M noise3 cfg auto bounds seed paused mesh d st) s

/-- Source `const fps = Math.min(Math.max(options?.fps ?? 24, 1), 120)`. -/
def exportFpsClamp (fps : ℚ) : ℚ :=
  mathMin (mathMax fps 1) 120

/-- Source `const frameDurationMs = 1000 / fps` (with `fps` already
clamped). -/
def frameDurationMs (fps : ℚ) : ℚ :=
  1000 / exportFpsClamp fps

/-- Source `const timestamp = captureStart + (frame - 1) * frameDurationMs`
with `frame` running from 1 to `frameCount`. -/
def exportTimestamp (captureStart fps : ℚ) (frame : ℕ) : ℚ :=
  captureStart + ((frame : ℚ) - 1) * frameDurationMs fps

/-- Modelled from the spec: the deterministic-stepping discipline of the
frame clock.  `advance(timestamp, true)` lives in the external render
library; the spec states that each requested export step advances
simulation time by exactly one fixed tick of `frameDurationMs`
milliseconds, so after `n` steps the simulation time is `n` ticks. -/
def exportSimTime (fps : ℚ) (n : ℕ) : ℚ :=
  (n : ℚ) * (frameDurationMs fps / 1000)

/-- Source `releasePointer`: the gsap tween duration `0.35` seconds. -/
def releaseTweenDuration : ℚ := 0.35

/-- gsap `expo.out` ease: `1 - 2 ^ (-10 * p)` (the exponential is an
external library primitive, taken from `MathPrims.pow`). -/
def easeExpoOut (M : MathPrims) (p : ℚ) : ℚ :=
  1 - M.pow 2 (-10 * p)

/-- Modelled from the spec: the value of the manual engagement weight at
elapsed time `e` of the `releasePointer` gsap tween (a ramp from `start`
to `0` over `releaseTweenDuration` seconds with the `expo.out` curve); the
tween implementation itself lives in the external gsap library. -/
def manualPressRelease (M : MathPrims) (start e : ℚ) : ℚ :=
  if releaseTweenDuration ≤ e then 0
  else start * (1 - easeExpoOut M (e / releaseTweenDuration))

/-- A concrete instance of the external `Math` primitives agreeing with the
real functions at the points the witnesses evaluate them (`sin 0 = 0`,
`cos 0 = 1`, `sqrt 0 = 0`, `exp 0 = 1`, `pow 2 0 = 1`). -/
def mathPrimsConst : MathPrims :=
  ⟨fun _ => 0, fun _ => 1, fun _ => 0, fun _ => 1, fun _ _ => 1, 0⟩

/-- A distortion configuration used by concrete runs: full idle mix and
noise amplitude, unit spring, unit friction, zero rotation. -/
def cfgDemo : DistortionSettings :=
  { noiseAmplitude := 1
    noiseFrequency := 0
    noiseSpeed := 0
    followRate := 0
    radius := 1
    explodeAmplitude := 1
    rotationAmplitude := 0
    spring := 1
    friction := 1
    idleMix := 1 }

/-- Automation disabled (the `Off` state of the control panel). -/
def autoDemo : DistortionAutomationSettings :=
  { enabled := false
    mode := DistortionAutomationMode.Off
    intensity := 1
    pointerZOffset := 0
    sweepCycleSeconds := 6
    sweepWidth := 1
    sweepCurve := 0
    sweepBob := 0
    sweepBobFrequency := 1
    sweepDepth := 0
    bpm := 120
    stepsPerBeat := 2
    buzzFraction := 0.5
    buzzAttack := 0.2
    buzzRelease := 0.2
    spreadX := 1
    spreadY := 1
    centerBias := 0
    travelPortion := 0.5 }

/-- The default bounds the component starts from. -/
def boundsDemo : TextBounds :=
  { minX := -1, maxX := 1, minY := -1, maxY := 1, minZ := -0.5, maxZ := 0.5 }

/-- A one-vertex mesh at the origin with normal `(1,0,0)`. -/
def meshDemo : List (Vec3 × Vec3) := [(⟨0, 0, 0⟩, ⟨1, 0, 0⟩)]

/-- The initial frame state for `meshDemo` (everything at rest). -/
def stateDemo : FrameState :=
  { time := 0
    pointerCurrent := ⟨0, 0, 0⟩
    pointerTarget := ⟨0, 0, 0⟩
    manualPointerTarget := ⟨0, 0, 0⟩
    manualPress := 0
    automationTarget := ⟨0, 0, 0⟩
    bpm := ⟨-1, ⟨0, 0, 0⟩, ⟨0, 0, 0⟩⟩
    verts := [⟨⟨0, 0, 0⟩, ⟨0, 0, 0⟩⟩] }

/-- A one-vertex mesh at `(1,0,0)` used by the pause scenario. -/
def meshPauseDemo : List (Vec3 × Vec3) := [(⟨1, 0, 0⟩, ⟨1, 0, 0⟩)]

/-- A deformed state for the pause scenario: the vertex sits at `(2,0,0)`,
one unit away from its base position `(1,0,0)`. -/
def statePauseDemo : FrameState :=
  { time := 5
    pointerCurrent := ⟨1, 0, 0⟩
    pointerTarget := ⟨1, 0, 0⟩
    manualPointerTarget := ⟨1, 0, 0⟩
    manualPress := 0
    automationTarget := ⟨1, 0, 0⟩
    bpm := ⟨-1, ⟨1, 0, 0⟩, ⟨1, 0, 0⟩⟩
    verts := [⟨⟨2, 0, 0⟩, ⟨0, 0, 0⟩⟩] }

/-- The configuration of the C1 equilibrium scenario. -/
def cfgEquilibrium : DistortionSettings :=
  { noiseAmplitude := 0
    noiseFrequency := 1
    noiseSpeed := 1
    followRate := 5
    radius := 0.5
    explodeAmplitude := 1
    rotationAmplitude := 0
    spring := 0.05
    friction := 0.9
    idleMix := 0.25 }

/-! ## Theorems -/

/-- The embedded `Math.max` agrees with the order-theoretic `max`. -/
theorem mathMax_eq_max (a b : ℚ) : mathMax a b = max a b := by
  rw [mathMax, max_def]

/-- The embedded `Math.min` agrees with the order-theoretic `min`. -/
theorem mathMin_eq_min (a b : ℚ) : mathMin a b = min a b := by
  rw [mathMin, min_def]

/-- Claim C3: on every frame whose total weight exceeds the `0.0001`
threshold, the instantaneous attention target equals the exact
weight-normalized average `(mp*manual + ap*automation) / (mp + ap)`, and
when only one source has nonzero weight its raw target passes through
unchanged. -/
theorem blend_weighted_average (m a prev : Vec3) (mp ap : ℚ)
    (hmp : 0 ≤ mp) (hap : 0 ≤ ap) (h : 0.0001 < mp + ap) :
    blendTarget m a prev mp ap =
        ⟨(mp * m.x + ap * a.x) / (mp + ap),
         (mp * m.y + ap * a.y) / (mp + ap),
         (mp * m.z + ap * a.z) / (mp + ap)⟩
      ∧ (ap = 0 → blendTarget m a prev mp ap = m)
      ∧ (mp = 0 → blendTarget m a prev mp ap = a) := by
  obtain ⟨mx, my, mz⟩ := m
  obtain ⟨ax, ay, az⟩ := a
  have htot : (0 : ℚ) < mp + ap := lt_trans (by norm_num) h
  have hne : mp + ap ≠ 0 := ne_of_gt htot
  refine ⟨?_, ?_, ?_⟩
  · simp only [blendTarget, Vec3.addScaledVector, Vec3.multiplyScalar, if_pos h,
      Vec3.mk.injEq]
    refine ⟨?_, ?_, ?_⟩ <;> · field_simp; try ring
  · intro hap0
    subst hap0
    have hmp0 : mp ≠ 0 := by intro h0; rw [h0] at h; norm_num at h
    simp only [blendTarget, Vec3.addScaledVector, Vec3.multiplyScalar, if_pos h,
      Vec3.mk.injEq]
    refine ⟨?_, ?_, ?_⟩ <;> · field_simp; try ring
  · intro hmp0
    subst hmp0
    have hap0 : ap ≠ 0 := by intro h0; rw [h0] at h; norm_num at h
    simp only [blendTarget, Vec3.addScaledVector, Vec3.multiplyScalar, if_pos h,
      Vec3.mk.injEq]
    refine ⟨?_, ?_, ?_⟩ <;> · field_simp; try ring

/-- Witness for C3: manual weight `0.3` and automation weight `0.7` on
distinct targets give exactly the normalized weighted average. -/
theorem blend_weighted_average_witness :
    blendTarget ⟨1, 0, 0⟩ ⟨0, 1, 0⟩ ⟨5, 5, 5⟩ (3/10) (7/10) =
        ⟨(3/10 * 1 + 7/10 * 0) / (3/10 + 7/10),
         (3/10 * 0 + 7/10 * 1) / (3/10 + 7/10),
         (3/10 * 0 + 7/10 * 0) / (3/10 + 7/10)⟩ :=
  (blend_weighted_average ⟨1, 0, 0⟩ ⟨0, 1, 0⟩ ⟨5, 5, 5⟩ (3/10) (7/10)
    (by norm_num) (by norm_num) (by norm_num)).1

/-- Claim C4: the engagement factor is `max(manualWeight,
automationWeight)` (not the sum), the final mix factor is
`max(engagement, idleMixFloor)` and therefore never below the idle floor,
and with zero engagement it equals the idle floor exactly. -/
theorem mixfactor_idle_floor (mp ap f : ℚ) (hf : 0 ≤ f) :
    framePress mp ap = max mp ap
      ∧ frameMixFactor mp ap f = max (max mp ap) f
      ∧ f ≤ frameMixFactor mp ap f
      ∧ frameMixFactor 0 0 f = f := by
  have hp : framePress mp ap = max mp ap := mathMax_eq_max _ _
  have hm : ∀ g1 g2 i : ℚ, frameMixFactor g1 g2 i = max (framePress g1 g2) i :=
    fun _ _ _ => mathMax_eq_max _ _
  refine ⟨hp, by rw [hm, hp], ?_, ?_⟩
  · rw [hm]
    exact le_max_right _ _
  · rw [hm]
    simp [framePress, mathMax_eq_max, max_eq_right hf]

/-- Witness for C4 at `idleMixFloor = 1/8`. -/
theorem mixfactor_idle_floor_witness :
    framePress (1/2) (1/4) = max (1/2) (1/4)
      ∧ frameMixFactor (1/2) (1/4) (1/8) = max (max (1/2) (1/4)) (1/8)
      ∧ (1/8 : ℚ) ≤ frameMixFactor (1/2) (1/4) (1/8)
      ∧ frameMixFactor 0 0 (1/8) = 1/8 :=
  mixfactor_idle_floor (1/2) (1/4) (1/8) (by norm_num)

/-- Claim C5: the proximity gate is a hard cutoff.  `d` is the Euclidean
distance from the vertex base position to the attention point
(characterized by `0 ≤ d` and `d * d = vdistSq`, and computed by the
`Math.sqrt` collaborator): at any distance at most the clamped radius the
influence equals the explode amplitude, and beyond it the influence is
exactly `0` — no falloff. -/
theorem proximity_gate_hard_cutoff (M : MathPrims) (base pointer : Vec3)
    (radius0 explode d : ℚ) (hd : 0 ≤ d)
    (hchar : d * d = vdistSq base pointer)
    (hM : M.sqrt (vdistSq base pointer) = d) :
    (d ≤ radiusClamped radius0 →
        pointerInfluenceCalc M base pointer (radiusClamped radius0) explode = explode)
      ∧ (radiusClamped radius0 < d →
        pointerInfluenceCalc M base pointer (radiusClamped radius0) explode = 0) := by
  constructor
  · intro h
    simp [pointerInfluenceCalc, vertexDistance, hM, h]
  · intro h
    simp [pointerInfluenceCalc, vertexDistance, hM, not_le.mpr h]

/-- Witness for C5: a vertex at distance `3` from the attention point with
configured radius `1/2` (hence clamped radius `1/2`): the gate conditions
at that concrete input. -/
theorem proximity_gate_hard_cutoff_witness :
    ((3 : ℚ) ≤ radiusClamped (1/2) →
        pointerInfluenceCalc ⟨fun _ => 0, fun _ => 1, fun _ => 3, fun _ => 1, fun _ _ => 1, 0⟩
          ⟨3, 0, 0⟩ ⟨0, 0, 0⟩ (radiusClamped (1/2)) 1 = 1)
      ∧ (radiusClamped (1/2) < 3 →
        pointerInfluenceCalc ⟨fun _ => 0, fun _ => 1, fun _ => 3, fun _ => 1, fun _ _ => 1, 0⟩
          ⟨3, 0, 0⟩ ⟨0, 0, 0⟩ (radiusClamped (1/2)) 1 = 0) :=
  proximity_gate_hard_cutoff _ ⟨3, 0, 0⟩ ⟨0, 0, 0⟩ (1/2) 1 3
    (by norm_num) (by norm_num [vdistSq]) rfl

/-- Claim C7: export timestamps are monotonically increasing and spaced by
exactly `1000 / fps` milliseconds, and the deterministic-stepping
simulation time after step `n` is exactly `n / fps` seconds (the per-step
tick accrual is modelled from the spec, since `advance` lives in the
external render library). -/
theorem export_frame_spacing (fps : ℚ) (h1 : 1 ≤ fps) (h2 : fps ≤ 120)
    (captureStart : ℚ) :
    (∀ frameNumber : ℕ,
        exportTimestamp captureStart fps (frameNumber + 1) -
            exportTimestamp captureStart fps frameNumber = 1000 / fps)
      ∧ (∀ frameNumber : ℕ,
        exportTimestamp captureStart fps frameNumber <
            exportTimestamp captureStart fps (frameNumber + 1))
      ∧ (∀ n : ℕ, exportSimTime fps n = (n : ℚ) / fps) := by
  have hfpos : (0 : ℚ) < fps := lt_of_lt_of_le one_pos h1
  have hfd : frameDurationMs fps = 1000 / fps := by
    simp [frameDurationMs, exportFpsClamp, mathMax_eq_max, mathMin_eq_min,
      max_eq_left h1, min_eq_left h2]
  have hdpos : (0 : ℚ) < 1000 / fps := div_pos (by norm_num) hfpos
  refine ⟨?_, ?_, ?_⟩
  · intro f
    simp only [exportTimestamp, hfd]
    push_cast
    ring
  · intro f
    simp only [exportTimestamp, hfd]
    push_cast
    nlinarith [hdpos]
  · intro n
    have hne : fps ≠ 0 := ne_of_gt hfpos
    simp only [exportSimTime, hfd]
    field_simp
    ring

/-- Witness for C7 at `fps = 24`: consecutive timestamps differ by exactly
`1000/24` ms and the simulation time after 10 steps is `10/24` seconds. -/
theorem export_frame_spacing_witness :
    exportTimestamp 0 24 6 - exportTimestamp 0 24 5 = 1000 / 24
      ∧ exportSimTime 24 10 = (10 : ℚ) / 24 :=
  ⟨(export_frame_spacing 24 (by norm_num) (by norm_num) 0).1 5,
   (export_frame_spacing 24 (by norm_num) (by norm_num) 0).2.2 10⟩

/-- Claim C9 counterexample: the follow rate is used unclamped.  With the
genuine real exponential, a configured follow rate of exactly `0` yields a
follow coefficient of exactly `0` — not a small positive epsilon — and the
smoothed pointer makes no progress toward a distinct target, so the
non-convergent blend the claim says is prevented does occur. -/
theorem follow_rate_unclamped_counterexample :
    followAlphaReal (1/60) 0 = 0
      ∧ Vec3.lerp ⟨0, 0, 0⟩ ⟨1, 2, 3⟩ 0 = ⟨0, 0, 0⟩
      ∧ (⟨0, 0, 0⟩ : Vec3) ≠ ⟨1, 2, 3⟩ := by
    refine ⟨?_, by simp [Vec3.lerp], by decide⟩
    simp [followAlphaReal]

/-- Claim C9 as amended: the radius and the rhythmic-step tempo inputs are
silently clamped to positive minima before use (`max(radius, 0.0001)`,
`max(bpm, 1)`, `max(1, stepsPerBeat)`), so those denominators are positive
and no division by zero occurs; the follow rate, however, is not clamped —
a zero follow rate produces a zero convergence coefficient and the
smoothed pointer holds its value (safe, but the blend does not converge). -/
theorem degenerate_clamps_amended :
    (∀ r : ℚ, 0.0001 ≤ radiusClamped r ∧ 0 < radiusClamped r)
      ∧ (∀ b s : ℚ, 0 < bpmStepDuration b s)
      ∧ (∀ delta : ℝ, followAlphaReal delta 0 = 0)
      ∧ (∀ p tgt : Vec3, Vec3.lerp p tgt 0 = p) := by
  refine ⟨fun r => ⟨?_, ?_⟩, fun b s => ?_, fun delta => ?_, fun p tgt => ?_⟩
  · rw [radiusClamped, mathMax_eq_max]
    exact le_max_right _ _
  · rw [radiusClamped, mathMax_eq_max]
    exact lt_of_lt_of_le (by norm_num) (le_max_right _ _)
  · rw [bpmStepDuration, mathMax_eq_max, mathMax_eq_max]
    have hb : (0 : ℚ) < max b 1 := lt_of_lt_of_le one_pos (le_max_right b 1)
    have hs : (0 : ℚ) < max 1 s := lt_of_lt_of_le one_pos (le_max_left 1 s)
    exact div_pos (by norm_num) (mul_pos hb hs)
  · simp [followAlphaReal]
  · simp only [Vec3.lerp, mul_zero, add_zero]

/-- One step of the C1 equilibrium scenario: with the vertex resting at its
base position, zero velocity, the attention point pinned at the base
(distance 0, inside the radius), zero noise amplitude and zero rotation
amplitude, the per-vertex update is the identity. -/
theorem equilibrium_vertexStep (M : MathPrims) (noise3 : ℚ → ℚ → ℚ → ℚ)
    (cfg : DistortionSettings) (t seed : ℚ)
    (hsqrt : M.sqrt 0 = 0) (hsin : M.sin 0 = 0) (hcos : M.cos 0 = 1)
    (hna : cfg.noiseAmplitude = 0) (hra : cfg.rotationAmplitude = 0)
    (hex : cfg.explodeAmplitude = 1) (hrad : cfg.radius = 0.5) :
    vertexStep M noise3 cfg ⟨1, 0, 0⟩ 1 t seed (radiusClamped cfg.radius)
        ⟨1, 0, 0⟩ ⟨1, 0, 0⟩ ⟨⟨1, 0, 0⟩, ⟨0, 0, 0⟩⟩ = ⟨⟨1, 0, 0⟩, ⟨0, 0, 0⟩⟩ := by
  have h0 : vdistSq ⟨1, 0, 0⟩ ⟨1, 0, 0⟩ = 0 := by norm_num [vdistSq]
  have hgate : (0 : ℚ) ≤ radiusClamped cfg.radius := by
    rw [hrad, radiusClamped, mathMax_eq_max]
    norm_num
  simp only [vertexStep, vertexDistance, pointerInfluenceCalc, h0, hsqrt, hna, hra,
    hex, hrad, if_pos hgate]
  norm_num [applyEuler, quatFromEulerXYZ, applyQuaternion, hsin, hcos,
    VertexState.mk.injEq, Vec3.mk.injEq]

/-- Claim C1: zero-input equilibrium stability of the integrator.  For a
single vertex whose base position, current position and the pinned
attention point all coincide at `(1,0,0)` (normal `(1,0,0)`), with zero
noise amplitude, zero rotation amplitude, spring `0.05`, friction `0.9`,
explode amplitude `1`, radius `0.5` and mix factor `1`, folding the
per-vertex update over any sequence of simulation steps (arbitrary noise
phases `ts`) leaves the position at the base and the velocity at zero. -/
theorem zero_input_equilibrium (M : MathPrims) (noise3 : ℚ → ℚ → ℚ → ℚ)
    (cfg : DistortionSettings) (seed : ℚ)
    (hsqrt : M.sqrt 0 = 0) (hsin : M.sin 0 = 0) (hcos : M.cos 0 = 1)
    (hna : cfg.noiseAmplitude = 0) (hra : cfg.rotationAmplitude = 0)
    (hex : cfg.explodeAmplitude = 1) (hrad : cfg.radius = 0.5)
    (hspring : cfg.spring = 0.05) (hfric : cfg.friction = 0.9)
    (ts : List ℚ) :
    ts.foldl
        (fun v t =>
          vertexStep M noise3 cfg ⟨1, 0, 0⟩ 1 t seed (radiusClamped cfg.radius)
            ⟨1, 0, 0⟩ ⟨1, 0, 0⟩ v)
        ⟨⟨1, 0, 0⟩, ⟨0, 0, 0⟩⟩ = ⟨⟨1, 0, 0⟩, ⟨0, 0, 0⟩⟩ := by
  induction ts with
  | nil => rfl
  | cons t rest ih =>
      rw [List.foldl_cons,
        equilibrium_vertexStep M noise3 cfg t seed hsqrt hsin hcos hna hra hex hrad]
      exact ih

/-- Witness for C1: three concrete steps of the equilibrium scenario with
the concrete configuration `cfgEquilibrium` leave the vertex untouched. -/
theorem zero_input_equilibrium_witness :
    List.foldl
        (fun v t =>
          vertexStep mathPrimsConst (fun _ _ _ => 0) cfgEquilibrium ⟨1, 0, 0⟩ 1 t 7
            (radiusClamped cfgEquilibrium.radius) ⟨1, 0, 0⟩ ⟨1, 0, 0⟩ v)
        ⟨⟨1, 0, 0⟩, ⟨0, 0, 0⟩⟩ [1/60, 1/30, 1] = ⟨⟨1, 0, 0⟩, ⟨0, 0, 0⟩⟩ :=
  zero_input_equilibrium mathPrimsConst (fun _ _ _ => 0) cfgEquilibrium 7
    rfl rfl rfl rfl rfl rfl rfl rfl rfl [1/60, 1/30, 1]

/-- Claim C6: BPM Buzz divides simulation time into steps of duration
`60 / (bpm * stepsPerBeat)` seconds (positive, and time `t` lies in step
`n` exactly when `n*dur ≤ t < (n+1)*dur`); the deterministic hash input
`seed * 0.173 + stepIndex * 1.4142` is injective in the step index for a
fixed seed; and the target drawn on entering a new step equals the pure
function `bpmDrawTarget` of the seed and the entered step index alone,
regardless of all prior rhythmic state. -/
theorem bpm_step_timing_and_purity (bpm spb : ℚ) (h1 : 1 ≤ bpm) (h2 : 1 ≤ spb) :
    bpmStepDuration bpm spb = 60 / (bpm * spb)
      ∧ 0 < bpmStepDuration bpm spb
      ∧ (∀ (t : ℚ) (n : ℤ),
          bpmStepIndexAt t (bpmStepDuration bpm spb) = n ↔
            (n : ℚ) * bpmStepDuration bpm spb ≤ t ∧
              t < ((n : ℚ) + 1) * bpmStepDuration bpm spb)
      ∧ (∀ (seed : ℚ) (i j : ℤ),
          bpmRandomSeedBase seed i = bpmRandomSeedBase seed j → i = j)
      ∧ (∀ (M : MathPrims) (auto : DistortionAutomationSettings)
          (hw hh hd cx cy cz seed time : ℚ) (prev : Vec3) (st : BpmAutomationState),
          st.stepIndex ≠
              bpmStepIndexAt time (bpmStepDuration auto.bpm auto.stepsPerBeat) →
            ((bpmBranch M auto hw hh hd cx cy cz seed time prev st).2.2).toV =
              bpmDrawTarget M auto hw hh hd cx cy cz seed
                (bpmStepIndexAt time (bpmStepDuration auto.bpm auto.stepsPerBeat))) := by
  have hdur : 0 < bpmStepDuration bpm spb := by
    rw [bpmStepDuration, mathMax_eq_max, mathMax_eq_max]
    have hb : (0 : ℚ) < max bpm 1 := lt_of_lt_of_le one_pos (le_max_right bpm 1)
    have hs : (0 : ℚ) < max 1 spb := lt_of_lt_of_le one_pos (le_max_left 1 spb)
    exact div_pos (by norm_num) (mul_pos hb hs)
  refine ⟨?_, hdur, ?_, ?_, ?_⟩
  · rw [bpmStepDuration, mathMax_eq_max, mathMax_eq_max, max_eq_left h1, max_eq_right h2]
  · intro t n
    rw [bpmStepIndexAt, Int.floor_eq_iff, le_div_iff hdur, div_lt_iff hdur]
  · intro seed i j h
    simp only [bpmRandomSeedBase, add_right_inj] at h
    have hc : (1.4142 : ℚ) ≠ 0 := by norm_num
    exact_mod_cast mul_right_cancel₀ hc h
  · intro M auto hw hh hd cx cy cz seed time prev st hne
    simp only [bpmStepIndexAt] at hne
    simp only [bpmBranch]
    split
    · rfl
    · next hcond =>
        exact absurd (not_not.mp hcond).symm hne

/-- Witness for C6 at `bpm = 120`, `stepsPerBeat = 4`: the step duration is
exactly `60 / 480` seconds and positive. -/
theorem bpm_step_timing_and_purity_witness :
    bpmStepDuration 120 4 = 60 / (120 * 4) ∧ 0 < bpmStepDuration 120 4 :=
  ⟨(bpm_step_timing_and_purity 120 4 (by norm_num) (by norm_num)).1,
   (bpm_step_timing_and_purity 120 4 (by norm_num) (by norm_num)).2.1⟩

/-- Claim C10: the automation engagement weight is reset to `0` at the top
of every running frame before the automation branch; on any frame where
automation is disabled or its mode is `Off`, the weight entering the blend
is exactly `0` and the automation target is left untouched — no release
decay, regardless of the weight on the previous frame (the result does not
depend on it at all).  By contrast the manual pointer weight is released
through a gsap tween of duration `0.35` s whose value at the instant of
release is still the full pre-release weight. -/
theorem automation_off_zero_weight (M : MathPrims)
    (auto : DistortionAutomationSettings) (bounds : TextBounds)
    (seed time start : ℚ) (prev : Vec3) (st : BpmAutomationState)
    (h : auto.enabled = false ∨ auto.mode = DistortionAutomationMode.Off)
    (hpow : M.pow 2 0 = 1) :
    (automationBranch M auto bounds seed time prev st).2.1 = 0
      ∧ (automationBranch M auto bounds seed time prev st).1 = prev
      ∧ releaseTweenDuration = 0.35
      ∧ manualPressRelease M start 0 = start := by
  have hcond : ¬(auto.enabled = true ∧ auto.mode ≠ DistortionAutomationMode.Off) := by
    rcases h with h | h
    · simp [h]
    · simp [h]
  refine ⟨?_, ?_, rfl, ?_⟩
  · simp only [automationBranch, if_neg hcond]
  · simp only [automationBranch, if_neg hcond]
  · have : ¬(releaseTweenDuration ≤ 0) := by norm_num [releaseTweenDuration]
    simp only [manualPressRelease, if_neg this, easeExpoOut]
    rw [zero_div, mul_zero, hpow]
    ring

/-- Witness for C10: with automation disabled, the branch yields weight `0`
and leaves the target untouched, while a released manual weight of `4/5`
still reads `4/5` at the instant the release tween starts. -/
theorem automation_off_zero_weight_witness :
    (automationBranch mathPrimsConst autoDemo boundsDemo 0 0 ⟨1, 2, 3⟩
          ⟨-1, ⟨0, 0, 0⟩, ⟨0, 0, 0⟩⟩).2.1 = 0
      ∧ (automationBranch mathPrimsConst autoDemo boundsDemo 0 0 ⟨1, 2, 3⟩
          ⟨-1, ⟨0, 0, 0⟩, ⟨0, 0, 0⟩⟩).1 = ⟨1, 2, 3⟩
      ∧ releaseTweenDuration = 0.35
      ∧ manualPressRelease mathPrimsConst (4/5) 0 = 4/5 :=
  automation_off_zero_weight mathPrimsConst autoDemo boundsDemo 0 0 (4/5)
    ⟨1, 2, 3⟩ ⟨-1, ⟨0, 0, 0⟩, ⟨0, 0, 0⟩⟩ (Or.inl rfl) rfl

/-- The per-vertex update evaluates its noise field only at points
determined by the vertex state and frame inputs: extensionally equal noise
fields give equal results. -/
theorem vertexStep_noise_congr {noise1 noise2 : ℚ → ℚ → ℚ → ℚ}
    (h : ∀ x y z, noise1 x y z = noise2 x y z) (M : MathPrims)
    (cfg : DistortionSettings) (pointer : Vec3) (mixFactor t seed radius : ℚ)
    (base normal : Vec3) (v : VertexState) :
    vertexStep M noise1 cfg pointer mixFactor t seed radius base normal v =
      vertexStep M noise2 cfg pointer mixFactor t seed radius base normal v := by
  simp only [vertexStep, h]

/-- Extensionally equal noise fields give equal whole-mesh updates. -/
theorem updateVerts_noise_congr {noise1 noise2 : ℚ → ℚ → ℚ → ℚ}
    (h : ∀ x y z, noise1 x y z = noise2 x y z) (M : MathPrims)
    (cfg : DistortionSettings) (pointer : Vec3) (mixFactor t seed radius : ℚ)
    (mesh : List (Vec3 × Vec3)) (verts : List VertexState) :
    updateVerts M noise1 cfg pointer mixFactor t seed radius mesh verts =
      updateVerts M noise2 cfg pointer mixFactor t seed radius mesh verts := by
  simp only [updateVerts, vertexStep_noise_congr h]

/-- Extensionally equal noise fields give equal frames. -/
theorem frame_noise_congr {noise1 noise2 : ℚ → ℚ → ℚ → ℚ}
    (h : ∀ x y z, noise1 x y z = noise2 x y z) (M : MathPrims)
    (cfg : DistortionSettings) (auto : DistortionAutomationSettings)
    (bounds : TextBounds) (seed : ℚ) (paused : Bool)
    (mesh : List (Vec3 × Vec3)) (delta : ℚ) (s : FrameState) :
    frame M noise1 cfg auto bounds seed paused mesh delta s =
      frame M noise2 cfg auto bounds seed paused mesh delta s := by
  simp only [frame, updateVerts_noise_congr h]

/-- Claim C2 as amended: the simulation is deterministic in all of its
actual inputs — for identical seed, configuration, automation settings,
bounds, mesh, initial state, delta sequence AND an (extensionally)
identical noise-field instance, two runs produce identical position and
velocity arrays at every step.  The original claim fails because the noise
field is NOT derived from the seed: the component constructs it as
`createNoise3D()` with no argument, so the field depends on the ambient
random source of the noise library, not on the seed
(see the accompanying counterexample). -/
theorem determinism_given_noise_field (M : MathPrims)
    {noise1 noise2 : ℚ → ℚ → ℚ → ℚ}
    (h : ∀ x y z, noise1 x y z = noise2 x y z)
    (cfg : DistortionSettings) (auto : DistortionAutomationSettings)
    (bounds : TextBounds) (seed : ℚ) (paused : Bool)
    (mesh : List (Vec3 × Vec3)) (deltas : List ℚ) (s : FrameState) :
    simulate M noise1 cfg auto bounds seed paused mesh deltas s =
      simulate M noise2 cfg auto bounds seed paused mesh deltas s := by
  simp only [simulate]
  exact List.foldl_ext _ _ s
    (fun a b _ => frame_noise_congr h M cfg auto bounds seed paused mesh b a)

/-- Witness for the amended C2 at a concrete one-step run. -/
theorem determinism_given_noise_field_witness :
    simulate mathPrimsConst (fun _ _ _ => 0) cfgDemo autoDemo boundsDemo 0 false
        meshDemo [1] stateDemo =
      simulate mathPrimsConst (fun _ _ _ => 0) cfgDemo autoDemo boundsDemo 0 false
        meshDemo [1] stateDemo :=
  determinism_given_noise_field mathPrimsConst (fun _ _ _ => rfl) cfgDemo autoDemo
    boundsDemo 0 false meshDemo [1] stateDemo

/-- Evaluation of the demo run for a constant noise field with value `c`:
after one frame with full idle mix, unit spring, unit friction and the
vertex inside the radius, the vertex position and velocity are both
`(c, 0, 0)`. -/
theorem demo_run_verts (c : ℚ) :
    (simulate mathPrimsConst (fun _ _ _ => c) cfgDemo autoDemo boundsDemo 0 false
        meshDemo [1] stateDemo).verts = [⟨⟨c, 0, 0⟩, ⟨c, 0, 0⟩⟩] := by
  norm_num [simulate, frame, automationBranch, blendTarget, followAlphaOf,
    frameMixFactor, framePress, radiusClamped, updateVerts, vertexStep,
    vertexDistance, vdistSq, pointerInfluenceCalc, applyEuler, quatFromEulerXYZ,
    applyQuaternion, Vec3.lerp, mathMax, mathMin, mathPrimsConst, cfgDemo,
    autoDemo, boundsDemo, meshDemo, stateDemo]

/-- Claim C2 counterexample: two runs with the identical seed (`0`),
identical configuration, identical bounds and mesh, the identical single
fixed delta and no pointer or automation input, but two different noise
fields (both valued inside the noise range `[-1, 1]`, as two independent
unseeded `createNoise3D()` instances generally are), produce different
position and velocity arrays after the very first step. -/
theorem determinism_counterexample :
    (simulate mathPrimsConst (fun _ _ _ => 0) cfgDemo autoDemo boundsDemo 0 false
        meshDemo [1] stateDemo).verts = [⟨⟨0, 0, 0⟩, ⟨0, 0, 0⟩⟩]
      ∧ (simulate mathPrimsConst (fun _ _ _ => 1/2) cfgDemo autoDemo boundsDemo 0 false
        meshDemo [1] stateDemo).verts = [⟨⟨1/2, 0, 0⟩, ⟨1/2, 0, 0⟩⟩]
      ∧ ([⟨⟨0, 0, 0⟩, ⟨0, 0, 0⟩⟩] : List VertexState) ≠
          [⟨⟨1/2, 0, 0⟩, ⟨1/2, 0, 0⟩⟩] := by
  refine ⟨demo_run_verts 0, demo_run_verts (1/2), ?_⟩
  norm_num [VertexState.mk.injEq, Vec3.mk.injEq]

/-- Claim C8 as amended: when pause is asserted, the frame callback of the
mounted (automation-capable) component returns before simulating, so
simulation time stops advancing and the entire simulation state —
positions, velocities, pointer and rhythmic state — is returned exactly
unchanged.  Deformation freezes instantly rather than decaying; no
pause-blend ramp exists in this component (the smooth 0.25 s pause-blend
ramp exists only in the legacy non-automation `ElasticText` variant). -/
theorem pause_freezes_state (M : MathPrims) (noise3 : ℚ → ℚ → ℚ → ℚ)
    (cfg : DistortionSettings) (auto : DistortionAutomationSettings)
    (bounds : TextBounds) (seed : ℚ) (mesh : List (Vec3 × Vec3)) (delta : ℚ)
    (s : FrameState) :
    frame M noise3 cfg auto bounds seed true mesh delta s = s := rfl

/-- Any number of paused frames leave the state untouched. -/
theorem simulate_paused_eq (M : MathPrims) (noise3 : ℚ → ℚ → ℚ → ℚ)
    (cfg : DistortionSettings) (auto : DistortionAutomationSettings)
    (bounds : TextBounds) (seed : ℚ) (mesh : List (Vec3 × Vec3))
    (deltas : List ℚ) (s : FrameState) :
    simulate M noise3 cfg auto bounds seed true mesh deltas s = s := by
  induction deltas with
  | nil => rfl
  | cons d rest ih =>
      simp only [simulate, List.foldl_cons] at ih ⊢
      exact ih

/-- Claim C8 counterexample: a vertex displaced one unit from its base,
run through sixty paused frames of `1/60` s each (one simulated second —
far longer than the claimed 0.25–0.35 s ramp), is still displaced exactly
one unit and the whole state is bit-identical to the pre-pause state: the
mix factor never ramps and the deformation does not decay toward the base
position, contradicting the claimed pause convergence. -/
theorem pause_no_decay_counterexample :
    simulate mathPrimsConst (fun _ _ _ => 0) cfgDemo autoDemo boundsDemo 0 true
        meshPauseDemo (List.replicate 60 (1/60)) statePauseDemo = statePauseDemo
      ∧ statePauseDemo.verts = [⟨⟨2, 0, 0⟩, ⟨0, 0, 0⟩⟩]
      ∧ meshPauseDemo = [(⟨1, 0, 0⟩, ⟨1, 0, 0⟩)]
      ∧ (⟨2, 0, 0⟩ : Vec3) ≠ ⟨1, 0, 0⟩ := by
  refine ⟨simulate_paused_eq mathPrimsConst (fun _ _ _ => 0) cfgDemo autoDemo
    boundsDemo 0 meshPauseDemo (List.replicate 60 (1/60)) statePauseDemo,
    rfl, rfl, ?_⟩
  norm_num [Vec3.mk.injEq]

end TypeCollapse
